import Mathlib

/-!
Shallow embedding of the tower-opentelemetry middleware (src/lib.rs).
The middleware wraps an inner service: on `call` it extracts a propagation
context from the request headers, builds and starts a server span with a
fixed HTTP attribute set, invokes the inner service, and at completion
records the outcome on the span, injects propagation headers into the
response, and ends the span.  External dependencies (the global text-map
propagator, the tracer, host-name resolution, the error type) are
parameters of the embedding; the data types of the `http` crate
(Method, Version, Uri, HeaderMap, HeaderValue, StatusCode reasons) are
embedded from that crate since the middleware relies on their behavior.
-/

namespace TowerOtel

/-- HTTP request method, mirroring `http::Method`: the nine standard verbs
plus extension methods carrying their own textual form. -/
inductive Method where
  | OPTIONS
  | GET
  | POST
  | PUT
  | DELETE
  | HEAD
  | TRACE
  | CONNECT
  | PATCH
  | other (s : String)
  deriving DecidableEq

/-- HTTP protocol version, mirroring `http::Version`: the five named
versions; the `other` constructor carries the string `format!` would
produce for an unrecognized version (the fallback arm of `http_flavor`). -/
inductive Version where
  | HTTP_09
  | HTTP_10
  | HTTP_11
  | HTTP_2
  | HTTP_3
  | other (s : String)
  deriving DecidableEq

/-- Embeds `http_method_str` (src/lib.rs lines 34-48): the common verbs map
to fixed string literals, anything else falls back to its own text. -/
def http_method_str : Method → String
  | Method.OPTIONS => "OPTIONS"
  | Method.GET => "GET"
  | Method.POST => "POST"
  | Method.PUT => "PUT"
  | Method.DELETE => "DELETE"
  | Method.HEAD => "HEAD"
  | Method.TRACE => "TRACE"
  | Method.CONNECT => "CONNECT"
  | Method.PATCH => "PATCH"
  | Method.other s => s

/-- Embeds `http_flavor` (src/lib.rs lines 50-60): known versions map to
dotted version strings, anything else to its debug format. -/
def http_flavor : Version → String
  | Version.HTTP_09 => "0.9"
  | Version.HTTP_10 => "1.0"
  | Version.HTTP_11 => "1.1"
  | Version.HTTP_2 => "2.0"
  | Version.HTTP_3 => "3.0"
  | Version.other s => s

/-- The path-and-query component of a URI (`http::uri::PathAndQuery`). -/
structure PathAndQuery where
  path : String
  query : Option String
  deriving DecidableEq

/-- String form of a path-and-query, as `PathAndQuery::as_str` renders it. -/
def PathAndQuery.asStr (pq : PathAndQuery) : String :=
  pq.path ++ (match pq.query with
    | some q => "?" ++ q
    | none => "")

/-- A request URI (`http::Uri`): optional scheme and authority, optional
path-and-query (absent for authority-form URIs). -/
structure Uri where
  scheme : Option String
  authority : Option String
  pathAndQuery : Option PathAndQuery
  deriving DecidableEq

/-- Embeds `Uri::path`: the path of the path-and-query part, or the empty
string when that part is absent. -/
def Uri.path (u : Uri) : String :=
  match u.pathAndQuery with
  | some pq => pq.path
  | none => ""

/-- Embeds `Uri::to_string` (the Display form used for the `http.url`
attribute). -/
def Uri.toFullString (u : Uri) : String :=
  (match u.scheme with
    | some s => s ++ "://"
    | none => "") ++
  (match u.authority with
    | some a => a
    | none => "") ++
  (match u.pathAndQuery with
    | some pq => pq.asStr
    | none => "")

/-- A header collection (`http::HeaderMap`): a multimap from lowercase
header names to header values, a value being a raw byte sequence. -/
abbrev HeaderMap := List (String × List Nat)

/-- Embeds the `http` crate check used by `HeaderValue::to_str`: a byte is
kept only if it is visible ASCII (32..126) or horizontal tab. -/
def isVisibleAscii (b : Nat) : Bool :=
  (32 ≤ b && b < 127) || b == 9

/-- Decodes a byte sequence as a string, one character per byte (used only
after the visible-ASCII check has accepted every byte). -/
def bytesToString (bs : List Nat) : String :=
  String.mk (bs.map Char.ofNat)

/-- Embeds `HeaderValue::to_str`: succeeds with the decoded string when
every byte is visible ASCII, fails otherwise. -/
def headerValueToStr (bs : List Nat) : Option String :=
  if bs.all isVisibleAscii then some (bytesToString bs) else none

/-- ASCII lowercasing of one character, as `HeaderName` normalization
performs it (only A through Z are mapped). -/
def lowerChar (c : Char) : Char :=
  if 65 ≤ c.toNat && c.toNat ≤ 90 then Char.ofNat (c.toNat + 32) else c

/-- ASCII lowercasing of a header-name string. -/
def asciiLower (s : String) : String :=
  String.mk (s.data.map lowerChar)

/-- Embeds `HeaderMap::get`: the first value stored under the name, the
lookup key being lowercased as `HeaderName` conversion does. -/
def HeaderMap.get (hm : HeaderMap) (key : String) : Option (List Nat) :=
  (hm.find? (fun p => p.1 == asciiLower key)).map (fun p => p.2)

namespace RequestHeaderCarrier

/-- Embeds `Extractor::get` for `RequestHeaderCarrier` (src/lib.rs lines
226-228): `headers.get(key).and_then(|v| v.to_str().ok())`. -/
def get (hm : HeaderMap) (key : String) : Option String :=
  (HeaderMap.get hm key).bind headerValueToStr

/-- Embeds `Extractor::keys` for `RequestHeaderCarrier` (src/lib.rs lines
230-232). -/
def keys (hm : HeaderMap) : List String :=
  hm.map (fun p => p.1)

end RequestHeaderCarrier

/-- Embeds the `http` crate character class for header-name bytes
(`HeaderName::from_bytes`): digits, letters, and the RFC 7230 token
symbols. -/
def isTokenByte (n : Nat) : Bool :=
  (48 ≤ n && n ≤ 57) || (97 ≤ n && n ≤ 122) || (65 ≤ n && n ≤ 90) ||
  n == 33 || n == 35 || n == 36 || n == 37 || n == 38 || n == 39 ||
  n == 42 || n == 43 || n == 45 || n == 46 || n == 94 || n == 95 ||
  n == 96 || n == 124 || n == 126

/-- Embeds `HeaderName::from_bytes` on a string key: valid when nonempty
and made of token characters; the stored name is lowercased. -/
def headerNameFromString (s : String) : Option String :=
  if !s.isEmpty && s.toList.all (fun c => isTokenByte c.toNat) then
    some (asciiLower s)
  else
    none

/-- Embeds the `http` crate check of `HeaderValue::from_str`: every byte
must be 32 or above and not 127, or horizontal tab. -/
def isValidHeaderValueChar (n : Nat) : Bool :=
  (32 ≤ n && n != 127) || n == 9

/-- UTF-8 encoding of one code point, byte by byte. -/
def utf8EncodeChar (n : Nat) : List Nat :=
  if n < 128 then [n]
  else if n < 2048 then [192 + n / 64, 128 + n % 64]
  else if n < 65536 then
    [224 + n / 4096, 128 + (n / 64) % 64, 128 + n % 64]
  else
    [240 + n / 262144, 128 + (n / 4096) % 64, 128 + (n / 64) % 64,
      128 + n % 64]

/-- The bytes of a string under UTF-8. -/
def stringToBytes (s : String) : List Nat :=
  s.toList.flatMap (fun c => utf8EncodeChar c.toNat)

/-- Embeds `HeaderValue::from_str`: succeeds with the UTF-8 bytes when
every character passes the header-value check. -/
def headerValueFromString (s : String) : Option (List Nat) :=
  if s.toList.all (fun c => isValidHeaderValueChar c.toNat) then
    some (stringToBytes s)
  else
    none

namespace ResultHeaderCarrier

/-- Embeds `Injector::set` for `ResultHeaderCarrier` (src/lib.rs lines
246-251): `headers.insert(HeaderName::from_bytes(key)?, HeaderValue::from_str(value)?)`,
where either conversion failing is a panic, modelled as `none`.  `insert`
replaces every existing value stored under the name. -/
def set (hm : HeaderMap) (key : String) (value : String) :
    Option HeaderMap :=
  match headerNameFromString key, headerValueFromString value with
  | some k, some v => some ((k, v) :: hm.filter (fun p => p.1 != k))
  | _, _ => none

end ResultHeaderCarrier

/-- The `inject` of the external propagator drives `Injector::set` once per
propagation entry it wants to write; the entries are a parameter since
the codec is external. -/
def injectAll : List (String × String) → HeaderMap → Option HeaderMap
  | [], hm => some hm
  | (k, v) :: rest, hm =>
    match ResultHeaderCarrier.set hm k v with
    | some hm2 => injectAll rest hm2
    | none => none

/-- Embeds `http::StatusCode::canonical_reason`: the registered reason
phrase of a status code, when one exists. -/
def canonicalReason : Nat → Option String
  | 100 => some "Continue"
  | 101 => some "Switching Protocols"
  | 102 => some "Processing"
  | 200 => some "OK"
  | 201 => some "Created"
  | 202 => some "Accepted"
  | 203 => some "Non-Authoritative Information"
  | 204 => some "No Content"
  | 205 => some "Reset Content"
  | 206 => some "Partial Content"
  | 207 => some "Multi-Status"
  | 208 => some "Already Reported"
  | 226 => some "IM Used"
  | 300 => some "Multiple Choices"
  | 301 => some "Moved Permanently"
  | 302 => some "Found"
  | 303 => some "See Other"
  | 304 => some "Not Modified"
  | 305 => some "Use Proxy"
  | 307 => some "Temporary Redirect"
  | 308 => some "Permanent Redirect"
  | 400 => some "Bad Request"
  | 401 => some "Unauthorized"
  | 402 => some "Payment Required"
  | 403 => some "Forbidden"
  | 404 => some "Not Found"
  | 405 => some "Method Not Allowed"
  | 406 => some "Not Acceptable"
  | 407 => some "Proxy Authentication Required"
  | 408 => some "Request Timeout"
  | 409 => some "Conflict"
  | 410 => some "Gone"
  | 411 => some "Length Required"
  | 412 => some "Precondition Failed"
  | 413 => some "Payload Too Large"
  | 414 => some "URI Too Long"
  | 415 => some "Unsupported Media Type"
  | 416 => some "Range Not Satisfiable"
  | 417 => some "Expectation Failed"
  | 418 => some "I\x27m a teapot"
  | 421 => some "Misdirected Request"
  | 422 => some "Unprocessable Entity"
  | 423 => some "Locked"
  | 424 => some "Failed Dependency"
  | 426 => some "Upgrade Required"
  | 428 => some "Precondition Required"
  | 429 => some "Too Many Requests"
  | 431 => some "Request Header Fields Too Large"
  | 451 => some "Unavailable For Legal Reasons"
  | 500 => some "Internal Server Error"
  | 501 => some "Not Implemented"
  | 502 => some "Bad Gateway"
  | 503 => some "Service Unavailable"
  | 504 => some "Gateway Timeout"
  | 505 => some "HTTP Version Not Supported"
  | 506 => some "Variant Also Negotiates"
  | 507 => some "Insufficient Storage"
  | 508 => some "Loop Detected"
  | 510 => some "Not Extended"
  | 511 => some "Network Authentication Required"
  | _ => none

/-- Embeds `StatusCode::is_server_error`: 500 through 599. -/
def isServerError (c : Nat) : Bool :=
  500 ≤ c && c < 600

/-- The description passed to `set_status` on the 5xx success path
(src/lib.rs lines 166-170): the canonical reason phrase, or the empty
string produced by `unwrap_or_default`. -/
def reasonOrEmpty (c : Nat) : String :=
  (canonicalReason c).getD ""

/-- Attribute value kinds the middleware writes (`Value::String` and
`Value::I64`). -/
inductive AttrValue where
  | str (s : String)
  | int (i : Int)
  deriving DecidableEq

/-- Span kind, mirroring `opentelemetry::trace::SpanKind`. -/
inductive SpanKind where
  | Client
  | Server
  | Producer
  | Consumer
  | Internal
  deriving DecidableEq

/-- Span status code, mirroring `opentelemetry::trace::StatusCode`. -/
inductive StatusCode where
  | Unset
  | Ok
  | Error
  deriving DecidableEq

/-- The remote identity a propagation context may carry (trace id and
parent span id); `none` at the use sites means no valid parent was
extracted and the new span becomes a trace root. -/
structure ParentIds where
  traceId : Nat
  spanId : Nat
  deriving DecidableEq

/-- The data fixed when the span builder starts the span: name, kind,
parent linkage, and the assembled attribute set. -/
structure SpanData where
  name : String
  kind : SpanKind
  parent : Option ParentIds
  attributes : List (String × AttrValue)
  deriving DecidableEq

/-- One operation performed on the span by the middleware, in order:
start (via `tracer.build`), `set_attribute`, `set_status`,
`record_exception`, `end`. -/
inductive SpanOp where
  | start (s : SpanData)
  | setAttribute (key : String) (v : AttrValue)
  | setStatus (code : StatusCode) (description : String)
  | recordException (message : String)
  | endSpan
  deriving DecidableEq

/-- Attribute keys from `opentelemetry_semantic_conventions::trace`. -/
def HTTP_METHOD : String := "http.method"

/-- Attribute key for the protocol version. -/
def HTTP_FLAVOR : String := "http.flavor"

/-- Attribute key for the full URL. -/
def HTTP_URL : String := "http.url"

/-- Attribute key for the host name. -/
def NET_HOST_NAME : String := "net.host.name"

/-- Attribute key for the path-and-query target. -/
def HTTP_TARGET : String := "http.target"

/-- Attribute key for the user agent. -/
def HTTP_USER_AGENT : String := "http.user_agent"

/-- Attribute key for the numeric response status. -/
def HTTP_STATUS_CODE : String := "http.status_code"

/-- An HTTP request as the middleware sees it. -/
structure Request (B : Type) where
  method : Method
  uri : Uri
  version : Version
  headers : HeaderMap
  body : B

/-- An HTTP response produced by the inner service. -/
structure Response (R : Type) where
  status : Nat
  headers : HeaderMap
  body : R
  deriving DecidableEq

/-- How the downstream future resolves: a response, an error, or it is
dropped before completion (cancellation), in which case the `map` closure
of src/lib.rs lines 156-183 never runs. -/
inductive Outcome (R E : Type) where
  | ok (res : Response R)
  | err (e : E)
  | cancelled

/-- The observable outcome of one `call`: the success branch re-labels the
response with the injected headers; `injectFailed` models the panic when
the injector receives an invalid header name or value. -/
inductive CallOutcome (R E : Type) where
  | ok (res : Response R)
  | err (e : E)
  | cancelled
  | injectFailed
  deriving DecidableEq

/-- Everything one `call` produces in the embedding: the extracted parent
context, the span data fixed at start, the request headers as handed to
the inner service, the ordered span operations, and the returned value. -/
structure CallResult (R E : Type) where
  parentContext : Option ParentIds
  span : SpanData
  downstreamHeaders : HeaderMap
  ops : List SpanOp
  result : CallOutcome R E

/-- Embeds the attribute assembly of src/lib.rs lines 128-147: method,
flavor and URL always; host name, target and user agent only when their
source data is present.  `hostName` stands for `SYSTEM.host_name()`. -/
def spanAttributes {B : Type} (hostName : Option String) (req : Request B) :
    List (String × AttrValue) :=
  [(HTTP_METHOD, AttrValue.str (http_method_str req.method)),
   (HTTP_FLAVOR, AttrValue.str (http_flavor req.version)),
   (HTTP_URL, AttrValue.str req.uri.toFullString)] ++
  (match hostName with
    | some h => [(NET_HOST_NAME, AttrValue.str h)]
    | none => []) ++
  (match req.uri.pathAndQuery with
    | some pq => [(HTTP_TARGET, AttrValue.str pq.asStr)]
    | none => []) ++
  (match RequestHeaderCarrier.get req.headers "user-agent" with
    | some ua => [(HTTP_USER_AGENT, AttrValue.str ua)]
    | none => [])

/-- The span operations of the success branch (src/lib.rs lines 157-174):
record the numeric status, mark error with the reason phrase when the
status is a server error, end the span. -/
def successOps (status : Nat) : List SpanOp :=
  [SpanOp.setAttribute HTTP_STATUS_CODE (AttrValue.int status)] ++
  (if isServerError status then
    [SpanOp.setStatus StatusCode.Error (reasonOrEmpty status)]
  else []) ++
  [SpanOp.endSpan]

/-- The span operations of the failure branch (src/lib.rs lines 176-182):
mark error with the debug form of the failure, record the exception event,
end the span. -/
def failureOps (debugMsg displayMsg : String) : List SpanOp :=
  [SpanOp.setStatus StatusCode.Error debugMsg,
   SpanOp.recordException displayMsg,
   SpanOp.endSpan]

/-- Embeds `Propagator::call` (src/lib.rs lines 117-187).  Parameters
stand for the external collaborators: `extractFn` is the global text-map
`extract` of the global text-map propagator, restricted to the read-only carrier view it is
given; `injectKvs` is the list of propagation entries its `inject` writes
through the injector; `debugE` and `displayE` are the Debug and Display
renderings of the error type; `hostName` is the host-name cache.  The
downstream resolution is passed as `outcome`; on cancellation the
completion closure never runs, so no further span operation happens. -/
def call {B R E : Type} (hostName : Option String)
    (extractFn : (String → Option String) → List String → Option ParentIds)
    (injectKvs : List (String × String))
    (debugE displayE : E → String)
    (req : Request B) (outcome : Outcome R E) : CallResult R E :=
  let parentCtx := extractFn (RequestHeaderCarrier.get req.headers)
    (RequestHeaderCarrier.keys req.headers)
  let span : SpanData :=
    { name := req.uri.path
      kind := SpanKind.Server
      parent := parentCtx
      attributes := spanAttributes hostName req }
  match outcome with
  | Outcome.ok res =>
    match injectAll injectKvs res.headers with
    | some newHeaders =>
      { parentContext := parentCtx
        span := span
        downstreamHeaders := req.headers
        ops := SpanOp.start span :: successOps res.status
        result := CallOutcome.ok
          { status := res.status, headers := newHeaders, body := res.body } }
    | none =>
      { parentContext := parentCtx
        span := span
        downstreamHeaders := req.headers
        ops := [SpanOp.start span]
        result := CallOutcome.injectFailed }
  | Outcome.err e =>
      { parentContext := parentCtx
        span := span
        downstreamHeaders := req.headers
        ops := SpanOp.start span :: failureOps (debugE e) (displayE e)
        result := CallOutcome.err e }
  | Outcome.cancelled =>
      { parentContext := parentCtx
        span := span
        downstreamHeaders := req.headers
        ops := [SpanOp.start span]
        result := CallOutcome.cancelled }

/-- Number of span starts in an operation list. -/
def countStarts (ops : List SpanOp) : Nat :=
  (ops.filter (fun op => match op with
    | SpanOp.start _ => true
    | _ => false)).length

/-- Number of span ends in an operation list. -/
def countEnds (ops : List SpanOp) : Nat :=
  (ops.filter (fun op => match op with
    | SpanOp.endSpan => true
    | _ => false)).length

/-- Whether an attribute list carries an entry under the given key. -/
def hasAttrKey (attrs : List (String × AttrValue)) (k : String) : Bool :=
  attrs.any (fun p => p.1 == k)

/-- Whether a byte is a UTF-8 continuation byte. -/
def isContByte (b : Nat) : Bool :=
  128 ≤ b && b < 192

/-- Fuel-driven worker of the UTF-8 validity check; one unit of fuel is
spent per encoded code point, so the length of the sequence is always
enough fuel. -/
def validUtf8Fuel : Nat → List Nat → Bool
  | _, [] => true
  | 0, _ :: _ => false
  | fuel + 1, b :: rest =>
    if b < 128 then validUtf8Fuel fuel rest
    else if 194 ≤ b && b ≤ 223 then
      match rest with
      | c1 :: r => isContByte c1 && validUtf8Fuel fuel r
      | [] => false
    else if b == 224 then
      match rest with
      | c1 :: c2 :: r =>
        (160 ≤ c1 && c1 < 192) && isContByte c2 && validUtf8Fuel fuel r
      | _ => false
    else if (225 ≤ b && b ≤ 236) || b == 238 || b == 239 then
      match rest with
      | c1 :: c2 :: r =>
        isContByte c1 && isContByte c2 && validUtf8Fuel fuel r
      | _ => false
    else if b == 237 then
      match rest with
      | c1 :: c2 :: r =>
        (128 ≤ c1 && c1 < 160) && isContByte c2 && validUtf8Fuel fuel r
      | _ => false
    else if b == 240 then
      match rest with
      | c1 :: c2 :: c3 :: r =>
        (144 ≤ c1 && c1 < 192) && isContByte c2 && isContByte c3 &&
          validUtf8Fuel fuel r
      | _ => false
    else if 241 ≤ b && b ≤ 243 then
      match rest with
      | c1 :: c2 :: c3 :: r =>
        isContByte c1 && isContByte c2 && isContByte c3 &&
          validUtf8Fuel fuel r
      | _ => false
    else if b == 244 then
      match rest with
      | c1 :: c2 :: c3 :: r =>
        (128 ≤ c1 && c1 < 144) && isContByte c2 && isContByte c3 &&
          validUtf8Fuel fuel r
      | _ => false
    else false

/-- Whether a byte sequence is valid UTF-8 (rejecting overlong forms,
surrogates, and code points beyond U+10FFFF). -/
def isValidUtf8 (bs : List Nat) : Bool :=
  validUtf8Fuel bs.length bs

/-- Example URI for the concrete witnesses: `/orders?id=7`. -/
def uriEx : Uri :=
  { scheme := none
    authority := none
    pathAndQuery := some { path := "/orders", query := some "id=7" } }

/-- Example request for the concrete witnesses: a GET with one visible
ASCII user-agent header. -/
def reqEx : Request Unit :=
  { method := Method.GET
    uri := uriEx
    version := Version.HTTP_11
    headers := [("user-agent", [116, 101, 115, 116])]
    body := () }

/-- Example propagator extraction returning no parent context. -/
def extractNoneEx :
    (String → Option String) → List String → Option ParentIds :=
  fun _ _ => none

/-- Example propagator extraction returning fixed parent ids. -/
def extractSomeEx :
    (String → Option String) → List String → Option ParentIds :=
  fun _ _ => some { traceId := 7, spanId := 9 }

/-- Debug and Display rendering of the Unit error in the witnesses. -/
def unitMsg : Unit → String :=
  fun _ => "E"

/-- Example response with the given status and one unrelated header. -/
def resEx (status : Nat) : Response Unit :=
  { status := status
    headers := [("content-type", [116, 101, 120, 116])]
    body := () }

/-- Example propagation entries the injector writes in the witnesses. -/
def kvsEx : List (String × String) :=
  [("traceparent", "00-abc-def-01")]

/-- Helper: starting the span happens exactly once in every branch shape
the call produces. -/
theorem countStarts_cons_successOps (sp : SpanData) (status : Nat) :
    countStarts (SpanOp.start sp :: successOps status) = 1 := by
  unfold countStarts successOps
  by_cases hs : isServerError status <;> simp [hs]

/-- Helper: the success branch ends the span exactly once. -/
theorem countEnds_cons_successOps (sp : SpanData) (status : Nat) :
    countEnds (SpanOp.start sp :: successOps status) = 1 := by
  unfold countEnds successOps
  by_cases hs : isServerError status <;> simp [hs]

/-- Helper: the failure branch ends the span exactly once. -/
theorem countEnds_cons_failureOps (sp : SpanData) (d1 d2 : String) :
    countEnds (SpanOp.start sp :: failureOps d1 d2) = 1 := by
  unfold countEnds failureOps
  simp

/-- C1 (amended): for every request exactly one span is started; when the
downstream call completes with a response (and header injection succeeds)
or with an error, exactly one span is ended; when the downstream future is
cancelled before completion, the span is never ended. -/
theorem C1_span_lifecycle {B R E : Type} (hostName : Option String)
    (extractFn : (String → Option String) → List String → Option ParentIds)
    (injectKvs : List (String × String)) (debugE displayE : E → String)
    (req : Request B) (outcome : Outcome R E) :
    countStarts (call hostName extractFn injectKvs debugE displayE
      req outcome).ops = 1
    ∧ (∀ e, outcome = Outcome.err e →
        countEnds (call hostName extractFn injectKvs debugE displayE
          req outcome).ops = 1)
    ∧ (∀ res hm2, outcome = Outcome.ok res →
        injectAll injectKvs res.headers = some hm2 →
        countEnds (call hostName extractFn injectKvs debugE displayE
          req outcome).ops = 1)
    ∧ (outcome = Outcome.cancelled →
        countEnds (call hostName extractFn injectKvs debugE displayE
          req outcome).ops = 0) := by
  refine ⟨?_, ?_, ?_, ?_⟩
  · cases outcome with
    | ok res =>
      cases h : injectAll injectKvs res.headers with
      | none => simp [call, h, countStarts]
      | some hm2 => simp [call, h, countStarts_cons_successOps]
    | err e => simp [call, countStarts, failureOps]
    | cancelled => simp [call, countStarts]
  · intro e he
    subst he
    simp [call, countEnds_cons_failureOps]
  · intro res hm2 ho hinj
    subst ho
    simp [call, hinj, countEnds_cons_successOps]
  · intro hc
    subst hc
    simp [call, countEnds]

/-- C1 witness: the amended lifecycle theorem applied to the concrete
request, checking both the error completion and the cancelled case. -/
theorem C1_span_lifecycle_witness :
    countEnds (call none extractNoneEx kvsEx unitMsg unitMsg reqEx
      (Outcome.err () : Outcome Unit Unit)).ops = 1
    ∧ countEnds (call none extractNoneEx kvsEx unitMsg unitMsg reqEx
      (Outcome.cancelled : Outcome Unit Unit)).ops = 0 :=
  ⟨(C1_span_lifecycle none extractNoneEx kvsEx unitMsg unitMsg reqEx
      (Outcome.err ())).2.1 () rfl,
   (C1_span_lifecycle none extractNoneEx kvsEx unitMsg unitMsg reqEx
      Outcome.cancelled).2.2.2 rfl⟩

/-- C1 counterexample: at this concrete request, when the downstream
future is cancelled the span is started once but ended zero times, so the
claim that exactly one span end happens regardless of outcome is false. -/
theorem C1_cancellation_counterexample :
    countStarts (call none extractNoneEx [] unitMsg unitMsg reqEx
      (Outcome.cancelled : Outcome Unit Unit)).ops = 1
    ∧ ¬ countEnds (call none extractNoneEx [] unitMsg unitMsg reqEx
      (Outcome.cancelled : Outcome Unit Unit)).ops = 1 := by
  constructor
  · rfl
  · decide

/-- C7: the http.method attribute value is the fixed uppercase literal for
each common verb and the own textual form of the verb for any other method; the
http.flavor value is the dotted version string for each known HTTP version
and the debug-formatted string for an unrecognized version. -/
theorem C7_method_flavor_mapping :
    http_method_str Method.OPTIONS = "OPTIONS"
    ∧ http_method_str Method.GET = "GET"
    ∧ http_method_str Method.POST = "POST"
    ∧ http_method_str Method.PUT = "PUT"
    ∧ http_method_str Method.DELETE = "DELETE"
    ∧ http_method_str Method.HEAD = "HEAD"
    ∧ http_method_str Method.TRACE = "TRACE"
    ∧ http_method_str Method.CONNECT = "CONNECT"
    ∧ http_method_str Method.PATCH = "PATCH"
    ∧ (∀ s, http_method_str (Method.other s) = s)
    ∧ http_flavor Version.HTTP_09 = "0.9"
    ∧ http_flavor Version.HTTP_10 = "1.0"
    ∧ http_flavor Version.HTTP_11 = "1.1"
    ∧ http_flavor Version.HTTP_2 = "2.0"
    ∧ http_flavor Version.HTTP_3 = "3.0"
    ∧ (∀ d, http_flavor (Version.other d) = d) := by
  refine ⟨rfl, rfl, rfl, rfl, rfl, rfl, rfl, rfl, rfl, fun s => rfl,
    rfl, rfl, rfl, rfl, rfl, fun d => rfl⟩

/-- C2: on a successful completion the numeric status is recorded as the
http.status_code attribute; a 5xx status marks the span status error with
the reason-phrase description, status 500 in particular with a non-empty
description; status 200 leaves the span status unset; and the response is
returned unchanged apart from header injection. -/
theorem C2_success_completion {B R E : Type} (hostName : Option String)
    (extractFn : (String → Option String) → List String → Option ParentIds)
    (injectKvs : List (String × String)) (debugE displayE : E → String)
    (req : Request B) (res : Response R) (hm2 : HeaderMap)
    (hinj : injectAll injectKvs res.headers = some hm2) :
    SpanOp.setAttribute HTTP_STATUS_CODE (AttrValue.int res.status) ∈
      (call hostName extractFn injectKvs debugE displayE req
        (Outcome.ok res)).ops
    ∧ (isServerError res.status = true →
        SpanOp.setStatus StatusCode.Error (reasonOrEmpty res.status) ∈
          (call hostName extractFn injectKvs debugE displayE req
            (Outcome.ok res)).ops)
    ∧ (res.status = 500 →
        ∃ d, SpanOp.setStatus StatusCode.Error d ∈
          (call hostName extractFn injectKvs debugE displayE req
            (Outcome.ok res)).ops ∧ d ≠ "")
    ∧ (res.status = 200 → ∀ sc d, SpanOp.setStatus sc d ∉
        (call hostName extractFn injectKvs debugE displayE req
          (Outcome.ok res)).ops)
    ∧ (call hostName extractFn injectKvs debugE displayE req
        (Outcome.ok res)).result = CallOutcome.ok
          { status := res.status, headers := hm2, body := res.body } := by
  refine ⟨?_, ?_, ?_, ?_, ?_⟩
  · simp [call, hinj, successOps]
  · intro hs
    simp [call, hinj, successOps, hs]
  · intro h500
    have hs : isServerError res.status = true := by
      rw [h500]
      decide
    have hr : reasonOrEmpty res.status = "Internal Server Error" := by
      rw [h500]
      rfl
    refine ⟨"Internal Server Error", ?_, by decide⟩
    rw [← hr]
    simp [call, hinj, successOps, hs]
  · intro h200 sc d
    have hs : isServerError res.status = false := by
      rw [h200]
      decide
    simp [call, hinj, successOps, hs]
  · simp [call, hinj]

/-- C2 witness: the success-completion theorem at a concrete 500 response
with an empty injection list. -/
theorem C2_success_completion_witness :
    injectAll [] (resEx 500).headers = some (resEx 500).headers
    ∧ (SpanOp.setAttribute HTTP_STATUS_CODE (AttrValue.int 500) ∈
        (call none extractNoneEx [] unitMsg unitMsg reqEx
          (Outcome.ok (resEx 500))).ops
      ∧ (call none extractNoneEx [] unitMsg unitMsg reqEx
          (Outcome.ok (resEx 500))).result = CallOutcome.ok
            { status := 500, headers := (resEx 500).headers, body := () }) :=
  ⟨rfl,
   (C2_success_completion none extractNoneEx [] unitMsg unitMsg reqEx
      (resEx 500) (resEx 500).headers rfl).1,
   (C2_success_completion none extractNoneEx [] unitMsg unitMsg reqEx
      (resEx 500) (resEx 500).headers rfl).2.2.2.2⟩

/-- C3: on a downstream failure the span status is set to error with the
debug rendering of the failure, an exception event recording the failure
is added, the span is ended, and the original failure value is returned
unchanged. -/
theorem C3_failure_completion {B R E : Type} (hostName : Option String)
    (extractFn : (String → Option String) → List String → Option ParentIds)
    (injectKvs : List (String × String)) (debugE displayE : E → String)
    (req : Request B) (e : E) :
    SpanOp.setStatus StatusCode.Error (debugE e) ∈
      (call hostName extractFn injectKvs debugE displayE req
        (Outcome.err e : Outcome R E)).ops
    ∧ SpanOp.recordException (displayE e) ∈
      (call hostName extractFn injectKvs debugE displayE req
        (Outcome.err e : Outcome R E)).ops
    ∧ SpanOp.endSpan ∈
      (call hostName extractFn injectKvs debugE displayE req
        (Outcome.err e : Outcome R E)).ops
    ∧ (call hostName extractFn injectKvs debugE displayE req
        (Outcome.err e : Outcome R E)).result = CallOutcome.err e := by
  refine ⟨?_, ?_, ?_, rfl⟩ <;> simp [call, failureOps]

/-- C8: on a successful response whose 5xx status has no canonical reason
phrase, the span status is still marked error but with the empty string as
its description. -/
theorem C8_unregistered_5xx {B R E : Type} (hostName : Option String)
    (extractFn : (String → Option String) → List String → Option ParentIds)
    (injectKvs : List (String × String)) (debugE displayE : E → String)
    (req : Request B) (res : Response R) (hm2 : HeaderMap)
    (h5 : isServerError res.status = true)
    (hnone : canonicalReason res.status = none)
    (hinj : injectAll injectKvs res.headers = some hm2) :
    SpanOp.setStatus StatusCode.Error "" ∈
      (call hostName extractFn injectKvs debugE displayE req
        (Outcome.ok res)).ops := by
  have hr : reasonOrEmpty res.status = "" := by
    simp [reasonOrEmpty, hnone]
  rw [← hr]
  simp [call, hinj, successOps, h5]

/-- C8 witness: the theorem at the unregistered status 599 with an empty
injection list. -/
theorem C8_unregistered_5xx_witness :
    isServerError 599 = true
    ∧ canonicalReason 599 = none
    ∧ SpanOp.setStatus StatusCode.Error "" ∈
        (call none extractNoneEx [] unitMsg unitMsg reqEx
          (Outcome.ok (resEx 599))).ops :=
  ⟨rfl, rfl,
   C8_unregistered_5xx none extractNoneEx [] unitMsg unitMsg reqEx
     (resEx 599) (resEx 599).headers rfl rfl rfl⟩

/-- C9: on a successful response whose status is not a server error, no
span status is ever set, while the numeric status attribute is still
recorded. -/
theorem C9_non_server_error {B R E : Type} (hostName : Option String)
    (extractFn : (String → Option String) → List String → Option ParentIds)
    (injectKvs : List (String × String)) (debugE displayE : E → String)
    (req : Request B) (res : Response R) (hm2 : HeaderMap)
    (hns : isServerError res.status = false)
    (hinj : injectAll injectKvs res.headers = some hm2) :
    (∀ sc d, SpanOp.setStatus sc d ∉
      (call hostName extractFn injectKvs debugE displayE req
        (Outcome.ok res)).ops)
    ∧ SpanOp.setAttribute HTTP_STATUS_CODE (AttrValue.int res.status) ∈
      (call hostName extractFn injectKvs debugE displayE req
        (Outcome.ok res)).ops := by
  constructor
  · intro sc d
    simp [call, hinj, successOps, hns]
  · simp [call, hinj, successOps]

/-- C9 witness: the theorem at a concrete 404 response with an empty
injection list. -/
theorem C9_non_server_error_witness :
    isServerError 404 = false
    ∧ SpanOp.setStatus StatusCode.Error "Not Found" ∉
        (call none extractNoneEx [] unitMsg unitMsg reqEx
          (Outcome.ok (resEx 404))).ops
    ∧ SpanOp.setAttribute HTTP_STATUS_CODE (AttrValue.int 404) ∈
        (call none extractNoneEx [] unitMsg unitMsg reqEx
          (Outcome.ok (resEx 404))).ops :=
  ⟨rfl,
   (C9_non_server_error none extractNoneEx [] unitMsg unitMsg reqEx
      (resEx 404) (resEx 404).headers rfl rfl).1 StatusCode.Error
      "Not Found",
   (C9_non_server_error none extractNoneEx [] unitMsg unitMsg reqEx
      (resEx 404) (resEx 404).headers rfl rfl).2⟩

/-- C4: the assembled attribute set always contains the mandatory method,
flavor and URL entries, and never contains a host-name, target or
user-agent entry when the corresponding source data is absent. -/
theorem C4_attribute_presence {B : Type} (hostName : Option String)
    (req : Request B) :
    hasAttrKey (spanAttributes hostName req) HTTP_METHOD = true
    ∧ hasAttrKey (spanAttributes hostName req) HTTP_FLAVOR = true
    ∧ hasAttrKey (spanAttributes hostName req) HTTP_URL = true
    ∧ (hostName = none →
        hasAttrKey (spanAttributes hostName req) NET_HOST_NAME = false)
    ∧ (req.uri.pathAndQuery = none →
        hasAttrKey (spanAttributes hostName req) HTTP_TARGET = false)
    ∧ (RequestHeaderCarrier.get req.headers "user-agent" = none →
        hasAttrKey (spanAttributes hostName req) HTTP_USER_AGENT = false) := by
  refine ⟨?_, ?_, ?_, ?_, ?_, ?_⟩
  · simp [spanAttributes, hasAttrKey]
  · simp [spanAttributes, hasAttrKey, HTTP_FLAVOR, HTTP_METHOD]
  · simp [spanAttributes, hasAttrKey, HTTP_URL, HTTP_METHOD, HTTP_FLAVOR]
  · intro h
    subst h
    cases hpq : req.uri.pathAndQuery <;>
      cases hua : RequestHeaderCarrier.get req.headers "user-agent" <;>
        simp [spanAttributes, hasAttrKey, hpq, hua, NET_HOST_NAME,
          HTTP_METHOD, HTTP_FLAVOR, HTTP_URL, HTTP_TARGET, HTTP_USER_AGENT]
  · intro hpq
    cases hh : hostName <;>
      cases hua : RequestHeaderCarrier.get req.headers "user-agent" <;>
        simp [spanAttributes, hasAttrKey, hpq, hh, hua, NET_HOST_NAME,
          HTTP_METHOD, HTTP_FLAVOR, HTTP_URL, HTTP_TARGET, HTTP_USER_AGENT]
  · intro hua
    cases hh : hostName <;>
      cases hpq : req.uri.pathAndQuery <;>
        simp [spanAttributes, hasAttrKey, hpq, hh, hua, NET_HOST_NAME,
          HTTP_METHOD, HTTP_FLAVOR, HTTP_URL, HTTP_TARGET, HTTP_USER_AGENT]

/-- C4 witness: the theorem at a concrete request whose URI has no
path-and-query, with no host name and no user-agent header. -/
theorem C4_attribute_presence_witness :
    hasAttrKey (spanAttributes none
      { method := Method.GET
        uri := { scheme := none, authority := none, pathAndQuery := none }
        version := Version.HTTP_11
        headers := []
        body := () }) HTTP_METHOD = true
    ∧ hasAttrKey (spanAttributes none
      { method := Method.GET
        uri := { scheme := none, authority := none, pathAndQuery := none }
        version := Version.HTTP_11
        headers := []
        body := () }) NET_HOST_NAME = false
    ∧ hasAttrKey (spanAttributes none
      { method := Method.GET
        uri := { scheme := none, authority := none, pathAndQuery := none }
        version := Version.HTTP_11
        headers := []
        body := () }) HTTP_TARGET = false
    ∧ hasAttrKey (spanAttributes none
      { method := Method.GET
        uri := { scheme := none, authority := none, pathAndQuery := none }
        version := Version.HTTP_11
        headers := []
        body := () }) HTTP_USER_AGENT = false :=
  ⟨(C4_attribute_presence none _).1,
   (C4_attribute_presence none _).2.2.2.1 rfl,
   (C4_attribute_presence none _).2.2.2.2.1 rfl,
   (C4_attribute_presence none _).2.2.2.2.2 rfl⟩

/-- C5: the created span is named with the request URI path, has server
kind, and its parent linkage is exactly the context the propagator
extracted from the inbound headers: the extracted ids when a valid context
is present, and no parent (a new trace root) otherwise. -/
theorem C5_span_identity {B R E : Type} (hostName : Option String)
    (extractFn : (String → Option String) → List String → Option ParentIds)
    (injectKvs : List (String × String)) (debugE displayE : E → String)
    (req : Request B) (outcome : Outcome R E) :
    (call hostName extractFn injectKvs debugE displayE req
      outcome).span.name = req.uri.path
    ∧ (call hostName extractFn injectKvs debugE displayE req
        outcome).span.kind = SpanKind.Server
    ∧ (call hostName extractFn injectKvs debugE displayE req
        outcome).span.parent = extractFn
          (RequestHeaderCarrier.get req.headers)
          (RequestHeaderCarrier.keys req.headers)
    ∧ (∀ ids, extractFn (RequestHeaderCarrier.get req.headers)
        (RequestHeaderCarrier.keys req.headers) = some ids →
        (call hostName extractFn injectKvs debugE displayE req
          outcome).span.parent = some ids)
    ∧ (extractFn (RequestHeaderCarrier.get req.headers)
        (RequestHeaderCarrier.keys req.headers) = none →
        (call hostName extractFn injectKvs debugE displayE req
          outcome).span.parent = none) := by
  have hspan : (call hostName extractFn injectKvs debugE displayE req
      outcome).span =
      { name := req.uri.path
        kind := SpanKind.Server
        parent := extractFn (RequestHeaderCarrier.get req.headers)
          (RequestHeaderCarrier.keys req.headers)
        attributes := spanAttributes hostName req } := by
    cases outcome with
    | ok res =>
      cases h : injectAll injectKvs res.headers <;> simp [call, h]
    | err e => simp [call]
    | cancelled => simp [call]
  refine ⟨by rw [hspan], by rw [hspan], by rw [hspan], ?_, ?_⟩
  · intro ids hid
    rw [hspan]
    exact hid
  · intro hnone
    rw [hspan]
    exact hnone

/-- C5 witness: the theorem at the concrete request, once with an
extraction carrying parent ids and once with an empty extraction. -/
theorem C5_span_identity_witness :
    (call none extractSomeEx [] unitMsg unitMsg reqEx
      (Outcome.cancelled : Outcome Unit Unit)).span.parent =
        some { traceId := 7, spanId := 9 }
    ∧ (call none extractNoneEx [] unitMsg unitMsg reqEx
        (Outcome.cancelled : Outcome Unit Unit)).span.parent = none
    ∧ (call none extractNoneEx [] unitMsg unitMsg reqEx
        (Outcome.cancelled : Outcome Unit Unit)).span.name = "/orders" :=
  ⟨(C5_span_identity none extractSomeEx [] unitMsg unitMsg reqEx
      Outcome.cancelled).2.2.2.1 { traceId := 7, spanId := 9 } rfl,
   (C5_span_identity none extractNoneEx [] unitMsg unitMsg reqEx
      Outcome.cancelled).2.2.2.2 rfl,
   ((C5_span_identity none extractNoneEx [] unitMsg unitMsg reqEx
      Outcome.cancelled).1).trans rfl⟩

/-- Helper: a successful header-name conversion yields the lowercased
key. -/
theorem headerNameFromString_eq_lower (s k : String)
    (h : headerNameFromString s = some k) : k = asciiLower s := by
  unfold headerNameFromString at h
  split at h
  · exact (Option.some.inj h).symm
  · exact absurd h (by simp)

/-- Helper: a successful `Injector::set` keeps every entry stored under a
name other than the (normalized) written key. -/
theorem mem_of_set {hm hm2 : HeaderMap} {k v : String}
    {p : String × List Nat}
    (hset : ResultHeaderCarrier.set hm k v = some hm2)
    (hp : p ∈ hm) (hne : p.1 ≠ asciiLower k) : p ∈ hm2 := by
  unfold ResultHeaderCarrier.set at hset
  cases hn : headerNameFromString k with
  | none =>
    rw [hn] at hset
    exact absurd hset (by simp)
  | some nm =>
    cases hv : headerValueFromString v with
    | none =>
      rw [hn, hv] at hset
      exact absurd hset (by simp)
    | some bytes =>
      rw [hn, hv] at hset
      rw [← Option.some.inj hset]
      apply List.mem_cons_of_mem
      refine List.mem_filter.mpr ⟨hp, ?_⟩
      have hnm : nm = asciiLower k := headerNameFromString_eq_lower k nm hn
      rw [hnm]
      exact bne_iff_ne.mpr hne

/-- Helper: a successful injection keeps every entry whose name differs
from all normalized propagation keys. -/
theorem mem_of_injectAll (kvs : List (String × String)) :
    ∀ (hm hm2 : HeaderMap) (p : String × List Nat),
      injectAll kvs hm = some hm2 → p ∈ hm →
      (∀ kv ∈ kvs, p.1 ≠ asciiLower kv.1) → p ∈ hm2 := by
  induction kvs with
  | nil =>
    intro hm hm2 p h hp _
    rw [← Option.some.inj h]
    exact hp
  | cons kv rest ih =>
    intro hm hm2 p h hp hk
    obtain ⟨k, v⟩ := kv
    unfold injectAll at h
    cases hset : ResultHeaderCarrier.set hm k v with
    | none =>
      rw [hset] at h
      exact absurd h (by simp)
    | some hmMid =>
      rw [hset] at h
      refine ih hmMid hm2 p h
        (mem_of_set hset hp (hk (k, v) (List.mem_cons_self _ _))) ?_
      intro kv2 hkv2
      exact hk kv2 (List.mem_cons_of_mem _ hkv2)

/-- C6: the extraction step hands the request headers to the inner service
unchanged, and a successful injection into the response headers keeps
every entry whose name is not one of the written propagation keys. -/
theorem C6_header_frame {B R E : Type} (hostName : Option String)
    (extractFn : (String → Option String) → List String → Option ParentIds)
    (injectKvs : List (String × String)) (debugE displayE : E → String)
    (req : Request B) (outcome : Outcome R E) :
    (call hostName extractFn injectKvs debugE displayE req
      outcome).downstreamHeaders = req.headers
    ∧ (∀ (hm hm2 : HeaderMap) (p : String × List Nat),
        injectAll injectKvs hm = some hm2 → p ∈ hm →
        (∀ kv ∈ injectKvs, p.1 ≠ asciiLower kv.1) → p ∈ hm2) := by
  constructor
  · cases outcome with
    | ok res =>
      cases h : injectAll injectKvs res.headers <;> simp [call, h]
    | err e => simp [call]
    | cancelled => simp [call]
  · exact fun hm hm2 p h hp hk => mem_of_injectAll injectKvs hm hm2 p h hp hk

/-- The headers of `resEx` after the witness injection of `kvsEx`. -/
def injectedHeadersEx : HeaderMap :=
  [("traceparent", [48, 48, 45, 97, 98, 99, 45, 100, 101, 102, 45, 48, 49]),
   ("content-type", [116, 101, 120, 116])]

/-- C6 witness: the theorem at the concrete request and a concrete
injection writing a traceparent entry next to a content-type entry, which
survives unchanged. -/
theorem C6_header_frame_witness :
    injectAll kvsEx (resEx 200).headers = some injectedHeadersEx
    ∧ ("content-type", [116, 101, 120, 116]) ∈ injectedHeadersEx
    ∧ (call none extractNoneEx kvsEx unitMsg unitMsg reqEx
        (Outcome.cancelled : Outcome Unit Unit)).downstreamHeaders =
        reqEx.headers :=
  ⟨by decide,
   (C6_header_frame none extractNoneEx kvsEx unitMsg unitMsg reqEx
      (Outcome.cancelled : Outcome Unit Unit)).2
     (resEx 200).headers injectedHeadersEx
     ("content-type", [116, 101, 120, 116]) (by decide) (by decide)
     (by decide),
   (C6_header_frame none extractNoneEx kvsEx unitMsg unitMsg reqEx
      (Outcome.cancelled : Outcome Unit Unit)).1⟩

/-- Helper: every visible ASCII byte is below 128. -/
theorem lt_128_of_isVisibleAscii (b : Nat) (h : isVisibleAscii b = true) :
    b < 128 := by
  unfold isVisibleAscii at h
  simp only [Bool.or_eq_true, Bool.and_eq_true, decide_eq_true_eq,
    beq_iff_eq] at h
  rcases h with ⟨_, h2⟩ | h9 <;> omega

/-- Helper: with enough fuel, a byte sequence entirely below 128 passes
the UTF-8 worker. -/
theorem validUtf8Fuel_of_ascii (fuel : Nat) :
    ∀ bs : List Nat, bs.length ≤ fuel → (∀ b ∈ bs, b < 128) →
      validUtf8Fuel fuel bs = true := by
  induction fuel with
  | zero =>
    intro bs hlen _
    cases bs with
    | nil => rfl
    | cons b rest => simp at hlen
  | succ f ih =>
    intro bs hlen h
    cases bs with
    | nil => rfl
    | cons b rest =>
      have hb : b < 128 := h b (List.mem_cons_self _ _)
      show validUtf8Fuel (f + 1) (b :: rest) = true
      rw [validUtf8Fuel.eq_def]
      dsimp only
      rw [if_pos hb]
      refine ih rest ?_ (fun x hx => h x (List.mem_cons_of_mem _ hx))
      simpa using Nat.succ_le_succ_iff.mp (by simpa using hlen)

/-- Helper: a byte sequence entirely below 128 is valid UTF-8. -/
theorem isValidUtf8_of_ascii (bs : List Nat) (h : ∀ b ∈ bs, b < 128) :
    isValidUtf8 bs = true :=
  validUtf8Fuel_of_ascii bs.length bs (Nat.le_refl _) h

/-- C10: the request-header extraction carrier returns `none` for a header
whose stored value is not valid UTF-8 (the code checks the stricter
visible-ASCII condition), instead of failing. -/
theorem C10_invalid_value_reads_none (hm : HeaderMap) (key : String)
    (v : List Nat) (hget : HeaderMap.get hm key = some v)
    (hbad : isValidUtf8 v = false) :
    RequestHeaderCarrier.get hm key = none := by
  unfold RequestHeaderCarrier.get
  rw [hget]
  show headerValueToStr v = none
  unfold headerValueToStr
  rw [if_neg]
  intro hall
  have h128 : ∀ b ∈ v, b < 128 := by
    intro b hb
    exact lt_128_of_isVisibleAscii b (List.all_eq_true.mp hall b hb)
  rw [isValidUtf8_of_ascii v h128] at hbad
  exact Bool.noConfusion hbad

/-- Headers carrying a traceparent value that is not valid UTF-8. -/
def badHeadersEx : HeaderMap :=
  [("traceparent", [255])]

/-- C10 witness: the theorem at a concrete header whose single byte 255 is
not valid UTF-8. -/
theorem C10_invalid_value_reads_none_witness :
    HeaderMap.get badHeadersEx "traceparent" = some [255]
    ∧ isValidUtf8 [255] = false
    ∧ RequestHeaderCarrier.get badHeadersEx "traceparent" = none :=
  ⟨by decide, by decide,
   C10_invalid_value_reads_none badHeadersEx "traceparent" [255]
     (by decide) (by decide)⟩

end TowerOtel
